import Mathlib

/-!
Shallow embedding of the devexec kernel module (src/devexec.rs): a /dev/exec
misc device that accumulates userspace writes in a mutex-guarded buffer and,
on close (`release`), materializes the buffer as an anonymous shmem file,
launches a usermode helper with that file installed at descriptor 3 of the
child, and waits for the helper to exit.

External collaborators (shmem_file_setup, kernel_write,
call_usermodehelper_setup, call_usermodehelper_exec, fd_install, fput) are
modeled by an environment oracle `Env` that chooses each call's outcome,
together with the kernel contracts of those calls: `kernel_write` on success
writes the given bytes at the given offset; `fd_install` consumes the caller's
file reference into the child's descriptor table; on child exit the child's
descriptor table is torn down, releasing each installed reference; and if
`call_usermodehelper_exec` fails before the child is spawned, the registered
init callback never runs and `subprocess_info` is freed without touching the
opaque data pointer (no cleanup function is registered by this module).
-/

namespace DevExec

/-- A payload byte, modeled as a natural number. -/
abbrev Byte := Nat

/-- The fixed descriptor index at which the image is installed in the child
(`EXEC_FD` in `kmod_devexec_init`, src/devexec.rs line 92). -/
def EXEC_FD : Nat := 3

/-- The program path and sole argument used for the launch
(src/devexec.rs line 181). -/
def execPath : String := "/proc/self/fd/3"

/-- Diagnostic dentry name given to the shmem file (src/devexec.rs line 149). -/
def shmemName : String := "kmod_devexec"

/-- The kernel uapi wait-mode constant UMH_WAIT_PROC (wait for the helper
process to terminate), value 0x02 in include/linux/umh.h; bindgen exposes it
as an unsigned integer, hence the `try_into` in the source. -/
def UMH_WAIT_PROC : Nat := 2

/-- The `try_into().unwrap()` conversion of an unsigned constant into a C
`int` applied to the wait-mode flag at src/devexec.rs line 209: succeeds
exactly when the value fits a 32-bit signed integer. -/
def tryIntoI32 (n : Nat) : Option Int :=
  if n ≤ 2 ^ 31 - 1 then some (n : Int) else none

/-- Per-open-session device state: the mutex-guarded growable byte buffer
(`DevExecDevice { data: Mutex<KVVec<u8>> }`). The mutex serializes writer and
closer; this sequential model already serializes calls, so the guard is
implicit in the state-passing. -/
structure DevExecDevice where
  data : List Byte
deriving Repr, DecidableEq

/-- `open`: a fresh device instance with an empty buffer. -/
def openDevice : DevExecDevice := ⟨[]⟩

/-- `write_iter`: appends the iov iterator's bytes to the device buffer and
returns the number of bytes consumed (`copy_from_iter_vec` copies the whole
iterator into the vector on success and returns that count). -/
def write_iter (dev : DevExecDevice) (iov : List Byte) : DevExecDevice × Nat :=
  (⟨dev.data ++ iov⟩, iov.length)

/-- A sequence of successful writes, threading the device state. -/
def writeAll (dev : DevExecDevice) (iovs : List (List Byte)) : DevExecDevice :=
  iovs.foldl (fun d iov => (write_iter d iov).1) dev

/-- A child-process descriptor table: descriptor index paired with the
contents of the file installed there. -/
abbrev FdTable := List (Nat × List Byte)

/-- `fd_install(fd, file)`: installs the file at index `fd` of the child's
descriptor table, consuming the caller's reference into the table. -/
def fd_install (fd : Nat) (file : List Byte) (table : FdTable) : FdTable :=
  table ++ [(fd, file)]

/-- The pre-exec callback `kmod_devexec_init` (src/devexec.rs lines 88-101):
recasts the request's opaque `data` back to the file and installs it at
`EXEC_FD` in the child's descriptor table, then returns 0. -/
def kmod_devexec_init (table : FdTable) (data : List Byte) : FdTable × Int :=
  (fd_install EXEC_FD data table, 0)

/-- Diagnostic log events emitted by `release`, in program order
(pr_info / pr_warn / pr_err lines of src/devexec.rs). -/
inductive Event where
  | logClosed : Event
  | warnEmptyBuffer : Event
  | errShmemSetup : Int → Event
  | errKernelWrite : Int → Event
  | logWrote : Int → Event
  | errUmhSetup : Event
  | logHelperReturned : Int → Event
deriving Repr, DecidableEq

/-- Outcome of `call_usermodehelper_exec(sub_info, UMH_WAIT_PROC)`. -/
inductive ExecOutcome where
  /-- The launch machinery failed before the child was spawned (for example
  -EBUSY while usermode helpers are disabled, or fork failure): the registered
  init callback never runs, the `subprocess_info` is freed without touching
  the opaque data pointer (this module registers no cleanup function), and
  the negative code `-(e+1)` is returned. -/
  | failedBeforeSpawn : Nat → ExecOutcome
  /-- The child was spawned: the init callback ran in the child's setup
  context before image replacement, the helper ran to completion, and the
  call returns the helper's status after the process fully terminated
  (UMH_WAIT_PROC semantics). At child exit the child's descriptor table is
  torn down, releasing every installed file reference. -/
  | ranChild : Int → ExecOutcome
deriving Repr, DecidableEq

instance instDecEqExcept {α β : Type} [DecidableEq α] [DecidableEq β] :
    DecidableEq (Except α β)
  | .error x, .error y =>
    if h : x = y then .isTrue (by rw [h]) else .isFalse (by simp [h])
  | .error _, .ok _ => .isFalse (by simp)
  | .ok _, .error _ => .isFalse (by simp)
  | .ok x, .ok y =>
    if h : x = y then .isTrue (by rw [h]) else .isFalse (by simp [h])

/-- The behavior chosen by the OS for the external calls of one close. -/
structure Env where
  /-- `shmem_file_setup`: `Except.error e` models an error-encoded pointer
  (IS_ERR) with `PTR_ERR = -(e+1)`; `Except.ok ()` a valid file. -/
  shmemSetup : Except Nat Unit
  /-- `kernel_write`: `Except.error e` models return value `-(e+1)`;
  `Except.ok ()` writes the whole buffer at the given offset and returns the
  buffer length. -/
  kernelWrite : Except Nat Unit
  /-- Whether `call_usermodehelper_setup` returns a non-null request. -/
  umhSetupOk : Bool
  /-- Outcome of `call_usermodehelper_exec`. -/
  umhExec : ExecOutcome
deriving Repr, DecidableEq

/-- Observable outcome of one `release` call. -/
structure ReleaseResult where
  /-- The device state after close-processing (the buffer was taken). -/
  dev : DevExecDevice
  /-- Diagnostic log, in emission order. -/
  log : List Event
  /-- `some c`: a shmem image object was created during this close and its
  final contents are `c`; `none`: no image was created. -/
  image : Option (List Byte)
  /-- Number of `kernel_write` calls issued against the image. -/
  imageWrites : Nat
  /-- Outstanding reference count of the image when `release` returns
  (0 when no image was created). -/
  imageRefs : Nat
  /-- Number of explicit `fput` calls performed by `release` itself. -/
  parentReleases : Nat
  /-- Number of image releases performed by the child's descriptor-table
  teardown at child exit. -/
  childReleases : Nat
  /-- Number of `call_usermodehelper_exec` invocations. -/
  execCalls : Nat
  /-- Number of helper subprocesses launched (spawned with the callback run). -/
  launches : Nat
  /-- The child's descriptor table as seen by the about-to-exec program
  (empty when no child setup ran). -/
  childFdTable : FdTable
  /-- Program path of the prepared subprocess request, when one was built. -/
  progPath : Option String
  /-- Argument vector of the prepared request (null terminator elided). -/
  argv : List String
  /-- Environment vector of the prepared request (null terminator elided). -/
  envp : List String
  /-- Whether `release` hit the `unwrap` panic point. -/
  panicked : Bool
deriving Repr, DecidableEq

/-- A result with all counters zero, used as the base for each exit path. -/
def baseResult (dev : DevExecDevice) (log : List Event) : ReleaseResult :=
  { dev := dev, log := log, image := none, imageWrites := 0, imageRefs := 0,
    parentReleases := 0, childReleases := 0, execCalls := 0, launches := 0,
    childFdTable := [], progPath := none, argv := [], envp := [],
    panicked := false }

/-- `release` (src/devexec.rs lines 138-211), the close-time finalization:
take the buffer out of the device under the lock (leaving it empty); if the
taken buffer is empty, warn and stop; create the shmem image; write the
buffer into it at offset 0; build the request for `execPath` with the image
as opaque data and `kmod_devexec_init` as the init callback; execute the
helper with `UMH_WAIT_PROC` and log its status. Each failure check mirrors
the source: IS_ERR on the shmem handle, negative `kernel_write` return with
`fput`, null `sub_info` with `fput`. -/
def release (device : DevExecDevice) (env : Env) : ReleaseResult :=
  let buffer := device.data
  let dev' : DevExecDevice := ⟨[]⟩
  let log0 : List Event := [.logClosed]
  if buffer.isEmpty then
    baseResult dev' (log0 ++ [.warnEmptyBuffer])
  else
    match env.shmemSetup with
    | .error e =>
      baseResult dev' (log0 ++ [.errShmemSetup (-(e + 1 : Int))])
    | .ok _ =>
      match env.kernelWrite with
      | .error e =>
        { baseResult dev'
            (log0 ++ [.errKernelWrite (-(e + 1 : Int))]) with
          image := some [], imageWrites := 1, imageRefs := 0,
          parentReleases := 1 }
      | .ok _ =>
        let written := (buffer.length : Int)
        let log1 := log0 ++ [.logWrote written]
        if env.umhSetupOk then
          match tryIntoI32 UMH_WAIT_PROC with
          | none =>
            { baseResult dev' log1 with
              image := some buffer, imageWrites := 1, imageRefs := 1,
              progPath := some execPath, argv := [execPath], envp := [],
              panicked := true }
          | some _ =>
            match env.umhExec with
            | .failedBeforeSpawn e =>
              { baseResult dev'
                  (log1 ++ [.logHelperReturned (-(e + 1 : Int))]) with
                image := some buffer, imageWrites := 1, imageRefs := 1,
                execCalls := 1, progPath := some execPath,
                argv := [execPath], envp := [] }
            | .ranChild status =>
              let stepped := kmod_devexec_init [] buffer
              { baseResult dev'
                  (log1 ++ [.logHelperReturned status]) with
                image := some buffer, imageWrites := 1, imageRefs := 0,
                childReleases := 1, execCalls := 1,
                launches := if stepped.2 = 0 then 1 else 0,
                childFdTable := stepped.1, progPath := some execPath,
                argv := [execPath], envp := [] }
        else
          { baseResult dev' (log1 ++ [.errUmhSetup]) with
            image := some buffer, imageWrites := 1, imageRefs := 0,
            parentReleases := 1 }

/-- Parse a nonempty all-digit character list as a natural number. -/
def parseNat? (cs : List Char) : Option Nat :=
  if cs.isEmpty then none
  else cs.foldl
    (fun acc c => acc.bind fun n =>
      if c.isDigit then some (n * 10 + (c.toNat - 48)) else none)
    (some 0)

/-- The descriptor index named by a path of the form `/proc/self/fd/N`:
such a path, opened by a process, resolves to that process's descriptor `N`. -/
def pathFdIndex (s : String) : Option Nat :=
  if s.data.take 14 = "/proc/self/fd/".data then parseNat? (s.data.drop 14)
  else none

/-- Accumulated writes concatenate onto the existing buffer in call order. -/
theorem writeAll_data (dev : DevExecDevice) (iovs : List (List Byte)) :
    (writeAll dev iovs).data = dev.data ++ iovs.flatten := by
  induction iovs generalizing dev with
  | nil => simp [writeAll]
  | cons iov rest ih =>
    simp [writeAll, write_iter] at ih ⊢
    rw [ih]
    simp

/-- Path equation: close with an empty buffer warns and stops. -/
theorem release_empty_eq (env : Env) :
    release ⟨[]⟩ env = baseResult ⟨[]⟩ [.logClosed, .warnEmptyBuffer] := rfl

/-- Path equation: shmem creation fails, the error is logged, nothing else
happens. -/
theorem release_createFail_eq (a : Byte) (l : List Byte) (e : Nat)
    (kw : Except Nat Unit) (us : Bool) (ux : ExecOutcome) :
    release ⟨a :: l⟩ ⟨.error e, kw, us, ux⟩ =
      baseResult ⟨[]⟩ [.logClosed, .errShmemSetup (-(e + 1 : Int))] := rfl

/-- Path equation: the image write fails, the image is put back (`fput`) and
finalization aborts. -/
theorem release_writeFail_eq (a : Byte) (l : List Byte) (e : Nat)
    (us : Bool) (ux : ExecOutcome) :
    release ⟨a :: l⟩ ⟨.ok (), .error e, us, ux⟩ =
      { baseResult ⟨[]⟩ [.logClosed, .errKernelWrite (-(e + 1 : Int))] with
        image := some [], imageWrites := 1, parentReleases := 1 } := rfl

/-- Path equation: request preparation returns null, the image is put back
(`fput`) and finalization aborts. -/
theorem release_setupFail_eq (a : Byte) (l : List Byte) (ux : ExecOutcome) :
    release ⟨a :: l⟩ ⟨.ok (), .ok (), false, ux⟩ =
      { baseResult ⟨[]⟩
          [.logClosed, .logWrote ((a :: l).length : Int), .errUmhSetup] with
        image := some (a :: l), imageWrites := 1, parentReleases := 1 } := rfl

/-- Path equation: `call_usermodehelper_exec` fails before the child is
spawned; the callback never runs and the image reference stays outstanding. -/
theorem release_execFail_eq (a : Byte) (l : List Byte) (e : Nat) :
    release ⟨a :: l⟩ ⟨.ok (), .ok (), true, .failedBeforeSpawn e⟩ =
      { baseResult ⟨[]⟩
          [.logClosed, .logWrote ((a :: l).length : Int),
            .logHelperReturned (-(e + 1 : Int))] with
        image := some (a :: l), imageWrites := 1, imageRefs := 1,
        execCalls := 1, progPath := some execPath, argv := [execPath],
        envp := [] } := rfl

/-- Path equation: full success: the helper runs with the image installed at
`EXEC_FD`, the child's exit tears the reference down. -/
theorem release_success_eq (a : Byte) (l : List Byte) (s : Int) :
    release ⟨a :: l⟩ ⟨.ok (), .ok (), true, .ranChild s⟩ =
    { dev := ⟨[]⟩,
      log := [.logClosed, .logWrote ((a :: l).length : Int),
        .logHelperReturned s],
      image := some (a :: l), imageWrites := 1, imageRefs := 0,
      parentReleases := 0, childReleases := 1, execCalls := 1, launches := 1,
      childFdTable := [(EXEC_FD, a :: l)], progPath := some execPath,
      argv := [execPath], envp := [], panicked := false } := rfl

/-- C1: the claim says the image created during a non-empty close is released
exactly once on every exit path of `release`. The code violates this on the
exit path where `call_usermodehelper_exec` fails before the child-setup
callback runs (e.g. -EBUSY, modeled here with code 15 so the return is -16):
the image was created (write succeeded), yet neither `release` nor any child
performs a release, and one reference is still outstanding when `release`
returns — the image is leaked, because no cleanup function was registered
with the subprocess request. -/
theorem C1_exec_failure_leaks_image :
    (release ⟨[1]⟩ ⟨.ok (), .ok (), true, .failedBeforeSpawn 15⟩).image
        = some [1] ∧
    (release ⟨[1]⟩ ⟨.ok (), .ok (), true, .failedBeforeSpawn 15⟩).parentReleases
        + (release ⟨[1]⟩
            ⟨.ok (), .ok (), true, .failedBeforeSpawn 15⟩).childReleases
        = 0 ∧
    (release ⟨[1]⟩ ⟨.ok (), .ok (), true, .failedBeforeSpawn 15⟩).imageRefs
        = 1 := by
  decide

/-- C2: on the full-success path of a close after writes `b1` then `b2`, the
whole taken buffer `b1 ++ b2` is written into the image at offset 0 in one
`kernel_write` call, the descriptor the callback installed resolves to exactly
those bytes in order, and exactly one subprocess is launched. -/
theorem C2_full_success_image_exact (b1 b2 : List Byte) (env : Env) (s : Int)
    (hne : b1 ++ b2 ≠ []) (hs : env.shmemSetup = .ok ())
    (hw : env.kernelWrite = .ok ()) (hu : env.umhSetupOk = true)
    (hx : env.umhExec = .ranChild s) :
    (release (writeAll openDevice [b1, b2]) env).image = some (b1 ++ b2) ∧
    (release (writeAll openDevice [b1, b2]) env).imageWrites = 1 ∧
    List.lookup EXEC_FD
        (release (writeAll openDevice [b1, b2]) env).childFdTable
      = some (b1 ++ b2) ∧
    (release (writeAll openDevice [b1, b2]) env).launches = 1 := by
  obtain ⟨se, kw, us, ux⟩ := env
  dsimp only at hs hw hu hx
  subst hs; subst hw; subst hu; subst hx
  have hdev : writeAll openDevice [b1, b2] = ⟨b1 ++ b2⟩ := by
    simp [writeAll, write_iter, openDevice]
  rw [hdev]
  cases hb : b1 ++ b2 with
  | nil => exact absurd hb hne
  | cons a l =>
    rw [release_success_eq]
    exact ⟨rfl, rfl, by simp [List.lookup], rfl⟩

/-- Witness for C2 at b1 = [1], b2 = [2, 3]. -/
theorem C2_full_success_image_exact_witness :
    (([1] ++ [2, 3] : List Byte) ≠ [] ∧
      (⟨.ok (), .ok (), true, .ranChild 0⟩ : Env).shmemSetup = .ok ()) ∧
    ((release (writeAll openDevice [[1], [2, 3]])
        ⟨.ok (), .ok (), true, .ranChild 0⟩).image = some ([1] ++ [2, 3]) ∧
      (release (writeAll openDevice [[1], [2, 3]])
        ⟨.ok (), .ok (), true, .ranChild 0⟩).imageWrites = 1 ∧
      List.lookup EXEC_FD
          (release (writeAll openDevice [[1], [2, 3]])
            ⟨.ok (), .ok (), true, .ranChild 0⟩).childFdTable
        = some ([1] ++ [2, 3]) ∧
      (release (writeAll openDevice [[1], [2, 3]])
        ⟨.ok (), .ok (), true, .ranChild 0⟩).launches = 1) :=
  ⟨⟨by decide, rfl⟩,
    C2_full_success_image_exact [1] [2, 3] ⟨.ok (), .ok (), true, .ranChild 0⟩
      0 (by decide) rfl rfl rfl rfl⟩

/-- C3: each successful write consumes exactly its input length and appends
(cumulative, not overwriting); the buffer length before close equals the sum
of the written lengths. -/
theorem C3_write_lengths (dev : DevExecDevice) (iov : List Byte)
    (iovs : List (List Byte)) :
    (write_iter dev iov).2 = iov.length ∧
    (write_iter dev iov).1.data = dev.data ++ iov ∧
    (writeAll openDevice iovs).data.length = (iovs.map List.length).sum := by
  refine ⟨rfl, rfl, ?_⟩
  rw [writeAll_data]
  simp [openDevice]

/-- C4: on every close, for every environment behavior, the instance's buffer
is taken at the start of close-processing and left empty, regardless of
whether finalization subsequently succeeds or aborts at any step. -/
theorem C4_buffer_reset (dev : DevExecDevice) (env : Env) :
    (release dev env).dev.data = [] := by
  obtain ⟨buf⟩ := dev
  obtain ⟨se, kw, us, ux⟩ := env
  cases buf <;> cases se <;> cases kw <;> cases us <;> cases ux <;> rfl

/-- C5: a close with an empty taken buffer stops as a non-error no-op: the
log is exactly the close notice plus a user-visible warning (no error event),
no anonymous image is created, and no subprocess is launched or attempted. -/
theorem C5_empty_buffer_warns (dev : DevExecDevice) (env : Env)
    (h : dev.data = []) :
    (release dev env).log = [Event.logClosed, Event.warnEmptyBuffer] ∧
    (release dev env).image = none ∧
    (release dev env).launches = 0 ∧
    (release dev env).execCalls = 0 := by
  obtain ⟨buf⟩ := dev
  dsimp only at h
  subst h
  exact ⟨rfl, rfl, rfl, rfl⟩

/-- Witness for C5 on a freshly opened device. -/
theorem C5_empty_buffer_warns_witness :
    openDevice.data = [] ∧
    ((release openDevice ⟨.ok (), .ok (), true, .ranChild 0⟩).log
        = [Event.logClosed, Event.warnEmptyBuffer] ∧
      (release openDevice ⟨.ok (), .ok (), true, .ranChild 0⟩).image = none ∧
      (release openDevice ⟨.ok (), .ok (), true, .ranChild 0⟩).launches = 0 ∧
      (release openDevice ⟨.ok (), .ok (), true, .ranChild 0⟩).execCalls
        = 0) :=
  ⟨rfl, C5_empty_buffer_warns openDevice
    ⟨.ok (), .ok (), true, .ranChild 0⟩ rfl⟩

/-- C6: when shmem creation fails (error-encoded handle), finalization aborts
after logging the error: no image exists, no write into an image occurs, no
subprocess is launched or attempted, no child descriptor table is mutated,
and there is no outstanding resource (nothing was released because nothing
was allocated). -/
theorem C6_create_failure_aborts (dev : DevExecDevice) (env : Env) (e : Nat)
    (hne : dev.data ≠ []) (hs : env.shmemSetup = .error e) :
    (release dev env).image = none ∧
    (release dev env).imageWrites = 0 ∧
    (release dev env).launches = 0 ∧
    (release dev env).execCalls = 0 ∧
    (release dev env).childFdTable = [] ∧
    (release dev env).imageRefs = 0 ∧
    (release dev env).parentReleases = 0 ∧
    (release dev env).childReleases = 0 ∧
    Event.errShmemSetup (-(e + 1 : Int)) ∈ (release dev env).log := by
  obtain ⟨buf⟩ := dev
  obtain ⟨se, kw, us, ux⟩ := env
  dsimp only at hne hs
  subst hs
  cases buf with
  | nil => exact absurd rfl hne
  | cons a l =>
    rw [release_createFail_eq]
    refine ⟨rfl, rfl, rfl, rfl, rfl, rfl, rfl, rfl, ?_⟩
    simp [baseResult]

/-- Witness for C6 with buffer [9] and creation error code 2 (encoding -3). -/
theorem C6_create_failure_aborts_witness :
    ((⟨[9]⟩ : DevExecDevice).data ≠ [] ∧
      (⟨.error 2, .ok (), true, .ranChild 0⟩ : Env).shmemSetup = .error 2) ∧
    ((release ⟨[9]⟩ ⟨.error 2, .ok (), true, .ranChild 0⟩).image = none ∧
      (release ⟨[9]⟩ ⟨.error 2, .ok (), true, .ranChild 0⟩).imageWrites = 0 ∧
      (release ⟨[9]⟩ ⟨.error 2, .ok (), true, .ranChild 0⟩).launches = 0 ∧
      (release ⟨[9]⟩ ⟨.error 2, .ok (), true, .ranChild 0⟩).execCalls = 0 ∧
      (release ⟨[9]⟩ ⟨.error 2, .ok (), true, .ranChild 0⟩).childFdTable
        = [] ∧
      (release ⟨[9]⟩ ⟨.error 2, .ok (), true, .ranChild 0⟩).imageRefs = 0 ∧
      (release ⟨[9]⟩ ⟨.error 2, .ok (), true, .ranChild 0⟩).parentReleases
        = 0 ∧
      (release ⟨[9]⟩ ⟨.error 2, .ok (), true, .ranChild 0⟩).childReleases
        = 0 ∧
      Event.errShmemSetup (-(2 + 1 : Int))
        ∈ (release ⟨[9]⟩ ⟨.error 2, .ok (), true, .ranChild 0⟩).log) :=
  ⟨⟨by decide, rfl⟩,
    C6_create_failure_aborts ⟨[9]⟩ ⟨.error 2, .ok (), true, .ranChild 0⟩ 2
      (by decide) rfl⟩

/-- C7: when the image write fails, or when request preparation returns a
null handle, the image is released exactly once by `release` itself (one
`fput`, no outstanding reference), the error is reported in the log,
finalization aborts, and no subprocess is launched — in fact the launch call
is never even issued on either path. -/
theorem C7_failure_paths_release_image (dev : DevExecDevice) (env : Env)
    (hne : dev.data ≠ []) (hs : env.shmemSetup = .ok ())
    (hf : (∃ e, env.kernelWrite = .error e) ∨
      (env.kernelWrite = .ok () ∧ env.umhSetupOk = false)) :
    (release dev env).parentReleases = 1 ∧
    (release dev env).imageRefs = 0 ∧
    (release dev env).launches = 0 ∧
    (release dev env).execCalls = 0 ∧
    ((∃ c, Event.errKernelWrite c ∈ (release dev env).log) ∨
      Event.errUmhSetup ∈ (release dev env).log) := by
  obtain ⟨buf⟩ := dev
  obtain ⟨se, kw, us, ux⟩ := env
  dsimp only at hne hs hf
  subst hs
  cases buf with
  | nil => exact absurd rfl hne
  | cons a l =>
    rcases hf with ⟨e, hkw⟩ | ⟨hkw, hus⟩
    · subst hkw
      rw [release_writeFail_eq]
      exact ⟨rfl, rfl, rfl, rfl,
        .inl ⟨-(e + 1 : Int), by simp [baseResult]⟩⟩
    · subst hkw; subst hus
      rw [release_setupFail_eq]
      exact ⟨rfl, rfl, rfl, rfl, .inr (by simp [baseResult])⟩

/-- Witness for C7 on the write-failure arm with buffer [4] and write error
code 5 (encoding return -6). -/
theorem C7_failure_paths_release_image_witness :
    ((⟨[4]⟩ : DevExecDevice).data ≠ [] ∧
      (⟨.ok (), .error 5, true, .ranChild 0⟩ : Env).kernelWrite
        = .error 5) ∧
    ((release ⟨[4]⟩ ⟨.ok (), .error 5, true, .ranChild 0⟩).parentReleases
        = 1 ∧
      (release ⟨[4]⟩ ⟨.ok (), .error 5, true, .ranChild 0⟩).imageRefs = 0 ∧
      (release ⟨[4]⟩ ⟨.ok (), .error 5, true, .ranChild 0⟩).launches = 0 ∧
      (release ⟨[4]⟩ ⟨.ok (), .error 5, true, .ranChild 0⟩).execCalls = 0 ∧
      ((∃ c, Event.errKernelWrite c
          ∈ (release ⟨[4]⟩ ⟨.ok (), .error 5, true, .ranChild 0⟩).log) ∨
        Event.errUmhSetup
          ∈ (release ⟨[4]⟩ ⟨.ok (), .error 5, true, .ranChild 0⟩).log)) :=
  ⟨⟨by decide, rfl⟩,
    C7_failure_paths_release_image ⟨[4]⟩
      ⟨.ok (), .error 5, true, .ranChild 0⟩ (by decide) rfl
      (.inl ⟨5, rfl⟩)⟩

/-- C8: the pre-exec callback installs the opaque-context image handle at the
fixed descriptor index EXEC_FD = 3 of the child's table and returns success
(0), for every table state and every handle. -/
theorem C8_callback_installs_fd3 (table : FdTable) (data : List Byte) :
    kmod_devexec_init table data = (table ++ [(EXEC_FD, data)], 0) := rfl

/-- C9: `release` is total with no caller-visible error channel: for every
device state and environment behavior — including helper failure statuses —
it completes without reaching the panic point, because the `try_into`
conversion of UMH_WAIT_PROC into a C int always succeeds (the constant is 2). -/
theorem C9_release_total (dev : DevExecDevice) (env : Env) :
    (release dev env).panicked = false ∧
    tryIntoI32 UMH_WAIT_PROC = some 2 := by
  constructor
  · obtain ⟨buf⟩ := dev
    obtain ⟨se, kw, us, ux⟩ := env
    cases buf <;> cases se <;> cases kw <;> cases us <;> cases ux <;> rfl
  · rfl

/-- C10: the launch's program path and sole argument "/proc/self/fd/3" names
exactly descriptor index EXEC_FD = 3 — the index the callback installs — so
on every successful launch the path the about-to-exec program opens resolves
to the descriptor holding the image, whose contents are the taken buffer. -/
theorem C10_path_matches_exec_fd (dev : DevExecDevice) (env : Env) (s : Int)
    (hne : dev.data ≠ []) (hs : env.shmemSetup = .ok ())
    (hw : env.kernelWrite = .ok ()) (hu : env.umhSetupOk = true)
    (hx : env.umhExec = .ranChild s) :
    pathFdIndex execPath = some EXEC_FD ∧
    (release dev env).progPath = some execPath ∧
    (release dev env).argv = [execPath] ∧
    List.lookup EXEC_FD (release dev env).childFdTable = some dev.data := by
  obtain ⟨buf⟩ := dev
  obtain ⟨se, kw, us, ux⟩ := env
  dsimp only at hne hs hw hu hx
  subst hs; subst hw; subst hu; subst hx
  cases buf with
  | nil => exact absurd rfl hne
  | cons a l =>
    rw [release_success_eq]
    exact ⟨by decide, rfl, rfl, by simp [List.lookup]⟩

/-- Witness for C10 with buffer [8] and helper status 0. -/
theorem C10_path_matches_exec_fd_witness :
    ((⟨[8]⟩ : DevExecDevice).data ≠ [] ∧
      (⟨.ok (), .ok (), true, .ranChild 0⟩ : Env).umhSetupOk = true) ∧
    (pathFdIndex execPath = some EXEC_FD ∧
      (release ⟨[8]⟩ ⟨.ok (), .ok (), true, .ranChild 0⟩).progPath
        = some execPath ∧
      (release ⟨[8]⟩ ⟨.ok (), .ok (), true, .ranChild 0⟩).argv
        = [execPath] ∧
      List.lookup EXEC_FD
          (release ⟨[8]⟩ ⟨.ok (), .ok (), true, .ranChild 0⟩).childFdTable
        = some (DevExecDevice.data ⟨[8]⟩)) :=
  ⟨⟨by decide, rfl⟩,
    C10_path_matches_exec_fd ⟨[8]⟩ ⟨.ok (), .ok (), true, .ranChild 0⟩ 0
      (by decide) rfl rfl rfl rfl⟩

end DevExec
